import Mathlib

/-!
Verification of the BioMCP host/server bridge.

This file gives a shallow embedding of the MCP client/server tool-invocation
bridge of the BioMCP repository and proves properties of it:

* `bio_mcp/mcp_host/bio_mcp_host/mcp_client/bio_mcp_client.py` — the JSON-RPC
  client (`BioMCPClient`): id allocation, the lock-step transport read,
  `call_tool` result normalization, connect/disconnect lifecycle.
* `bio_mcp/mcp_host/bio_mcp_host/llm_clients/{base,openai_client,google_client}.py`
  and `llm_manager.py` — the provider adapters: constructor arity, tool-schema
  translation, the tool-call execution loop.
* `bio_mcp/mcp_server/bio_mcp_server/server.py` — the `_calculate_pka` handler.

JSON values are modeled by the inductive `Json`; Python runtime exceptions by
`PyExc`; a fallible Python computation by `Except PyExc α`.  The child
process's stdout is modeled as a list of `ReadOutcome`s consumed one `readline`
at a time, exactly as the client's lock-step `_send_request` does.
-/

namespace BioMCP

/-- JSON values as parsed by `json.loads` (numbers restricted to integers,
which is all the modeled code paths construct or inspect). An object keeps
its key/value pairs in insertion order, as a Python `dict` does. -/
inductive Json where
  | null : Json
  | bool : Bool → Json
  | num : Int → Json
  | str : String → Json
  | arr : List Json → Json
  | obj : List (String × Json) → Json
deriving Repr, Inhabited

mutual

/-- Decidable equality of JSON values (the nested recursion prevents the
automatic derivation). -/
def Json.decEq : (a b : Json) → Decidable (a = b)
  | .null, .null => isTrue rfl
  | .null, .bool _ => isFalse (fun h => Json.noConfusion h)
  | .null, .num _ => isFalse (fun h => Json.noConfusion h)
  | .null, .str _ => isFalse (fun h => Json.noConfusion h)
  | .null, .arr _ => isFalse (fun h => Json.noConfusion h)
  | .null, .obj _ => isFalse (fun h => Json.noConfusion h)
  | .bool _, .null => isFalse (fun h => Json.noConfusion h)
  | .bool a, .bool b =>
      match inferInstanceAs (Decidable (a = b)) with
      | isTrue h => isTrue (congrArg Json.bool h)
      | isFalse h => isFalse (fun hh => h (Json.bool.inj hh))
  | .bool _, .num _ => isFalse (fun h => Json.noConfusion h)
  | .bool _, .str _ => isFalse (fun h => Json.noConfusion h)
  | .bool _, .arr _ => isFalse (fun h => Json.noConfusion h)
  | .bool _, .obj _ => isFalse (fun h => Json.noConfusion h)
  | .num _, .null => isFalse (fun h => Json.noConfusion h)
  | .num _, .bool _ => isFalse (fun h => Json.noConfusion h)
  | .num a, .num b =>
      match inferInstanceAs (Decidable (a = b)) with
      | isTrue h => isTrue (congrArg Json.num h)
      | isFalse h => isFalse (fun hh => h (Json.num.inj hh))
  | .num _, .str _ => isFalse (fun h => Json.noConfusion h)
  | .num _, .arr _ => isFalse (fun h => Json.noConfusion h)
  | .num _, .obj _ => isFalse (fun h => Json.noConfusion h)
  | .str _, .null => isFalse (fun h => Json.noConfusion h)
  | .str _, .bool _ => isFalse (fun h => Json.noConfusion h)
  | .str _, .num _ => isFalse (fun h => Json.noConfusion h)
  | .str a, .str b =>
      match inferInstanceAs (Decidable (a = b)) with
      | isTrue h => isTrue (congrArg Json.str h)
      | isFalse h => isFalse (fun hh => h (Json.str.inj hh))
  | .str _, .arr _ => isFalse (fun h => Json.noConfusion h)
  | .str _, .obj _ => isFalse (fun h => Json.noConfusion h)
  | .arr _, .null => isFalse (fun h => Json.noConfusion h)
  | .arr _, .bool _ => isFalse (fun h => Json.noConfusion h)
  | .arr _, .num _ => isFalse (fun h => Json.noConfusion h)
  | .arr _, .str _ => isFalse (fun h => Json.noConfusion h)
  | .arr a, .arr b =>
      match Json.decEqList a b with
      | isTrue h => isTrue (congrArg Json.arr h)
      | isFalse h => isFalse (fun hh => h (Json.arr.inj hh))
  | .arr _, .obj _ => isFalse (fun h => Json.noConfusion h)
  | .obj _, .null => isFalse (fun h => Json.noConfusion h)
  | .obj _, .bool _ => isFalse (fun h => Json.noConfusion h)
  | .obj _, .num _ => isFalse (fun h => Json.noConfusion h)
  | .obj _, .str _ => isFalse (fun h => Json.noConfusion h)
  | .obj _, .arr _ => isFalse (fun h => Json.noConfusion h)
  | .obj a, .obj b =>
      match Json.decEqFields a b with
      | isTrue h => isTrue (congrArg Json.obj h)
      | isFalse h => isFalse (fun hh => h (Json.obj.inj hh))

def Json.decEqList : (as bs : List Json) → Decidable (as = bs)
  | [], [] => isTrue rfl
  | [], _ :: _ => isFalse (fun h => List.noConfusion h)
  | _ :: _, [] => isFalse (fun h => List.noConfusion h)
  | a :: as, b :: bs =>
      match Json.decEq a b, Json.decEqList as bs with
      | isTrue h1, isTrue h2 => isTrue (by rw [h1, h2])
      | isFalse h1, _ => isFalse (fun hh => h1 (by injection hh))
      | _, isFalse h2 => isFalse (fun hh => h2 (by injection hh))

def Json.decEqFields : (as bs : List (String × Json)) → Decidable (as = bs)
  | [], [] => isTrue rfl
  | [], _ :: _ => isFalse (fun h => List.noConfusion h)
  | _ :: _, [] => isFalse (fun h => List.noConfusion h)
  | (k1, v1) :: as, (k2, v2) :: bs =>
      if hk : k1 = k2 then
        match Json.decEq v1 v2, Json.decEqFields as bs with
        | isTrue h1, isTrue h2 => isTrue (by rw [hk, h1, h2])
        | isFalse h1, _ => isFalse (fun hh => by
            injection hh with hp hrest
            injection hp with hpk hpv
            exact h1 hpv)
        | _, isFalse h2 => isFalse (fun hh => h2 (by injection hh))
      else
        isFalse (fun hh => by
          injection hh with hp hrest
          injection hp with hpk hpv
          exact hk hpk)

end

instance : DecidableEq Json := Json.decEq

/-- Python runtime exceptions raised by the modeled code paths. -/
inductive PyExc where
  | exception (msg : String)
  | runtimeError (msg : String)
  | attributeError (msg : String)
  | typeError (msg : String)
  | keyError (k : String)
  | nameError (n : String)
  | timeoutError (secs : Nat)
  | invalidJson
deriving Repr, DecidableEq, Inhabited

/-- Rendering `str(e)` of the exceptions above, as the Python code embeds it in
result records ( `f"Request timed out after {timeout} seconds"` renders the
10.0-second float default). -/
def PyExc.message : PyExc → String
  | .exception m => m
  | .runtimeError m => m
  | .attributeError m => m
  | .typeError m => m
  | .keyError k => "'" ++ k ++ "'"
  | .nameError n => "name '" ++ n ++ "' is not defined"
  | .timeoutError secs => "Request timed out after " ++ toString secs ++ ".0 seconds"
  | .invalidJson => "Invalid JSON response"

mutual

/-- Python `repr` of a parsed-JSON value (strings single-quoted, `True`,
`None`, dict/list syntax) — what `str` produces on containers. -/
def Json.pyRepr : Json → String
  | .null => "None"
  | .bool true => "True"
  | .bool false => "False"
  | .num n => toString n
  | .str s => "'" ++ s ++ "'"
  | .arr xs => "[" ++ Json.pyReprList xs ++ "]"
  | .obj fs => "\x7b" ++ Json.pyReprFields fs ++ "\x7d"

def Json.pyReprList : List Json → String
  | [] => ""
  | [x] => Json.pyRepr x
  | x :: y :: rest => Json.pyRepr x ++ ", " ++ Json.pyReprList (y :: rest)

def Json.pyReprFields : List (String × Json) → String
  | [] => ""
  | [p] => "'" ++ p.1 ++ "': " ++ Json.pyRepr p.2
  | p :: q :: rest => "'" ++ p.1 ++ "': " ++ Json.pyRepr p.2 ++ ", " ++ Json.pyReprFields (q :: rest)

end

/-- Python `str` of a parsed-JSON value: the string itself at top level,
`repr`-rendering inside containers. -/
def Json.pyStr : Json → String
  | .str s => s
  | j => j.pyRepr

/-- Key lookup in an object; `none` on non-objects or missing keys.
(Used where the Python code is known to hold a `dict`.) -/
def Json.getField? : Json → String → Option Json
  | .obj fields, k => fields.lookup k
  | _, _ => none

/-- Whether an object value carries the given key. -/
def Json.hasField (j : Json) (k : String) : Bool :=
  (j.getField? k).isSome

/-- Python `k in j` for a string key: key test on a dict, substring test on
a string, element test on a list; a `TypeError` on non-container values. -/
def Json.pyContains (j : Json) (k : String) : Except PyExc Bool :=
  match j with
  | .obj fields => .ok (fields.lookup k).isSome
  | .str s => .ok (decide ((s.splitOn k).length ≥ 2))
  | .arr xs => .ok (xs.contains (.str k))
  | _ => .error (.typeError "argument is not iterable")

/-- Python `j[k]` for a string key: lookup on a dict (raising `KeyError` when
absent), `TypeError` on everything else. -/
def Json.pySubscript (j : Json) (k : String) : Except PyExc Json :=
  match j with
  | .obj fields =>
      match fields.lookup k with
      | some v => .ok v
      | none => .error (.keyError k)
  | .str _ => .error (.typeError "string indices must be integers")
  | .arr _ => .error (.typeError "list indices must be integers")
  | _ => .error (.typeError "object is not subscriptable")

/-- Python `j.get k dflt`: total on dicts, `AttributeError` on any other
value (only `dict` has a `get` method among the modeled values). -/
def Json.pyGet (j : Json) (k : String) (dflt : Json) : Except PyExc Json :=
  match j with
  | .obj fields => .ok ((fields.lookup k).getD dflt)
  | _ => .error (.attributeError "object has no attribute get")

/-- Python iteration `for x in v`: the elements of a list, the characters of
a string, the keys of a dict; `TypeError` otherwise. -/
def Json.pyIter (v : Json) : Except PyExc (List Json) :=
  match v with
  | .arr xs => .ok xs
  | .str s => .ok (s.toList.map fun c => Json.str (String.singleton c))
  | .obj fs => .ok (fs.map fun p => Json.str p.1)
  | _ => .error (.typeError "object is not iterable")

mutual

/-- Rendering `json.dumps` of a value (double-quoted strings, `true`/`false`/`null`). -/
def Json.dumps : Json → String
  | .null => "null"
  | .bool true => "true"
  | .bool false => "false"
  | .num n => toString n
  | .str s => "\"" ++ s ++ "\""
  | .arr xs => "[" ++ Json.dumpsList xs ++ "]"
  | .obj fs => "\x7b" ++ Json.dumpsFields fs ++ "\x7d"

def Json.dumpsList : List Json → String
  | [] => ""
  | [x] => Json.dumps x
  | x :: y :: rest => Json.dumps x ++ ", " ++ Json.dumpsList (y :: rest)

def Json.dumpsFields : List (String × Json) → String
  | [] => ""
  | [p] => "\"" ++ p.1 ++ "\": " ++ Json.dumps p.2
  | p :: q :: rest => "\"" ++ p.1 ++ "\": " ++ Json.dumps p.2 ++ ", " ++ Json.dumpsFields (q :: rest)

end

/-- Python truthiness: `not v` is true exactly for `None`, `False`, `0`,
`""`, `[]` and `{}`. -/
def Json.pyFalsy : Json → Bool
  | .null => true
  | .bool b => !b
  | .num n => n == 0
  | .str s => s == ""
  | .arr xs => xs.isEmpty
  | .obj fs => fs.isEmpty

/-! ## The JSON-RPC client (`BioMCPClient`, direct stdio fallback path)

`bio_mcp_client.py` lines 24-41 set up the client state: `connected = False`,
`process = None` (no child process yet), `request_id = 1`,
`available_tools = []`.  The SDK-based path delegates request correlation to
the `mcp` package; the claims under verification cite the direct JSON-RPC
path (`_connect_direct`, `_send_request`, `_call_tool_direct`), which is
what is embedded here. -/

/-- The mutable state of one `BioMCPClient` session (direct path):
`connected` and `request_id` fields, whether `self.process` refers to a live
child process, and `available_tools`. -/
structure ClientState where
  connected : Bool
  processAlive : Bool
  requestId : Nat
  tools : Json
deriving Repr, DecidableEq, Inhabited

/-- The state of a freshly constructed `BioMCPClient` (lines 24-36). -/
def initialClientState : ClientState :=
  { connected := false, processAlive := false, requestId := 1, tools := .arr [] }

/-- Model of `BioMCPClient._get_next_id` (lines 38-41): `self.request_id += 1;
return self.request_id`. -/
def getNextId (st : ClientState) : Nat × ClientState :=
  (st.requestId + 1, { st with requestId := st.requestId + 1 })

/-- The ids produced by `n` successive `_get_next_id` calls on one session. -/
def idSeq (st : ClientState) : Nat → List Nat
  | 0 => []
  | n + 1 =>
      let p := getNextId st
      p.1 :: idSeq p.2 n

/-- What one `readline()` on the child's stdout yields for the current
request: no data within the timeout, end of stream (empty bytes), a line
that fails `json.loads`, or a line parsing to the JSON value `j`. -/
inductive ReadOutcome where
  | timeout : ReadOutcome
  | eof : ReadOutcome
  | badLine : ReadOutcome
  | line : Json → ReadOutcome
deriving Repr, DecidableEq, Inhabited

/-- The `timeout: float = 10.0` default of `_send_request` (line 184),
in seconds. -/
def defaultRequestTimeout : Nat := 10

/-- Model of `BioMCPClient._send_request` (lines 184-211).  Raises `RuntimeError`
when `self.process` is `None`; otherwise writes the request to the child's
stdin and reads exactly ONE line from its stdout, whatever that line's
content — the request's id plays no role in which response is returned.
Timeout, EOF and parse failure map to the source's exception/`None` cases.
The outcome stream is consumed one element per read. -/
def sendRequest (st : ClientState) (timeoutSecs : Nat) (_req : Json)
    (incoming : List ReadOutcome) : Except PyExc (Option Json) × List ReadOutcome :=
  if st.processAlive then
    match incoming with
    | [] => (.error (.timeoutError timeoutSecs), [])
    | .timeout :: rest => (.error (.timeoutError timeoutSecs), rest)
    | .eof :: rest => (.ok none, rest)
    | .badLine :: rest => (.error .invalidJson, rest)
    | .line j :: rest => (.ok (some j), rest)
  else
    (.error (.runtimeError "Not connected to server"), incoming)

/-- The result dictionary of `call_tool`/`_call_tool_direct`: `success`,
`tool`, `arguments` always; `result`/`raw_result` on the success shape,
`error` on the failure shapes, `raw_response` in the unexpected-format
branch. -/
structure ToolCallRecord where
  success : Bool
  tool : String
  arguments : Json
  result : Option Json := none
  error : Option Json := none
  rawResult : Option Json := none
  rawResponse : Option Json := none
deriving Repr, DecidableEq, Inhabited

/-- The text-extraction loop of `_call_tool_direct` (lines 338-342):
`content_text += content_item.get('text', '')` over the items whose
`type` is `"text"`.  A non-dict item makes `.get` raise `AttributeError`;
a non-string `text` value makes `+=` raise `TypeError`. -/
def extractTextBlocks : List Json → Except PyExc String
  | [] => .ok ""
  | item :: rest => do
      let piece ←
        match item with
        | .obj _ =>
            if item.getField? "type" = some (.str "text") then
              match item.getField? "text" with
              | some (.str s) => Except.ok s
              | none => Except.ok ""
              | some _ => Except.error (.typeError "can only concatenate str to str")
            else
              Except.ok ""
        | _ => Except.error (.attributeError "object has no attribute get")
      let restText ← extractTextBlocks rest
      .ok (piece ++ restText)

/-- Lines 326-358 of `_call_tool_direct`: normalize a (non-falsy) parsed
response into the result record — the `error` branch, the `result` branch
with text extraction and the `content_text or str(result)` fallback, and
the unexpected-format branch. -/
def handleToolResponse (toolName : String) (args : Json) (resp : Json) :
    Except PyExc ToolCallRecord := do
  let hasErr ← resp.pyContains "error"
  if hasErr then
    let errVal ← resp.pySubscript "error"
    let msg ← errVal.pyGet "message" (.str errVal.pyStr)
    pure { success := false, error := some msg, tool := toolName, arguments := args }
  else
    let hasRes ← resp.pyContains "result"
    if hasRes then
      let result ← resp.pySubscript "result"
      let hasContent ← result.pyContains "content"
      let contentText ←
        if hasContent then do
          let cv ← result.pySubscript "content"
          let items ← cv.pyIter
          extractTextBlocks items
        else
          pure ""
      pure { success := true,
             result := some (.str (if contentText == "" then result.pyStr else contentText)),
             tool := toolName, arguments := args, rawResult := some result }
    else
      pure { success := false, error := some (.str "Unexpected response format"),
             tool := toolName, arguments := args, rawResponse := some resp }

/-- The `tools/call` request of `_call_tool_direct` (lines 306-314). -/
def toolCallRequest (rid : Nat) (toolName : String) (args : Json) : Json :=
  .obj [("jsonrpc", .str "2.0"), ("id", .num rid), ("method", .str "tools/call"),
        ("params", .obj [("name", .str toolName), ("arguments", args)])]

/-- Model of `BioMCPClient._call_tool_direct` (lines 304-358): allocate an id, send
the request, and normalize the response; a falsy/absent response yields the
"No response from server" failure record. -/
def callToolDirect (st : ClientState) (toolName : String) (args : Json)
    (incoming : List ReadOutcome) :
    Except PyExc ToolCallRecord × ClientState × List ReadOutcome :=
  let p := getNextId st
  let st1 := p.2
  match sendRequest st1 defaultRequestTimeout (toolCallRequest p.1 toolName args) incoming with
  | (.error e, rest) => (.error e, st1, rest)
  | (.ok none, rest) =>
      (.ok { success := false, error := some (.str "No response from server"),
             tool := toolName, arguments := args }, st1, rest)
  | (.ok (some resp), rest) =>
      if resp.pyFalsy then
        (.ok { success := false, error := some (.str "No response from server"),
               tool := toolName, arguments := args }, st1, rest)
      else
        (handleToolResponse toolName args resp, st1, rest)

/-- Model of `BioMCPClient.call_tool` (lines 259-275), on the direct path
(`use_sdk` false): raises `RuntimeError` when not connected; otherwise any
exception out of `_call_tool_direct` is converted to a failure record with
`error = str(e)` — the caller receives a record, not an exception. -/
def callTool (st : ClientState) (toolName : String) (args : Json)
    (incoming : List ReadOutcome) :
    Except PyExc ToolCallRecord × ClientState × List ReadOutcome :=
  if st.connected then
    match callToolDirect st toolName args incoming with
    | (.error e, st1, rest) =>
        (.ok { success := false, error := some (.str e.message),
               tool := toolName, arguments := args }, st1, rest)
    | (.ok r, st1, rest) => (.ok r, st1, rest)
  else
    (.error (.runtimeError "Not connected to Bio MCP Server"), st, incoming)

/-- Model of `BioMCPClient.disconnect` (lines 222-246): sets `connected = False` and
terminates the child process (graceful terminate with a 5-second bound,
escalating to kill), leaving `self.process = None` on every path. -/
def disconnect (st : ClientState) : ClientState :=
  { st with connected := false, processAlive := false }

/-- The `initialize` request of `_connect_direct` (lines 144-153). -/
def initRequest (rid : Nat) : Json :=
  .obj [("jsonrpc", .str "2.0"), ("id", .num rid), ("method", .str "initialize"),
        ("params", .obj [("protocolVersion", .str "2024-11-05"),
                         ("capabilities", .obj []),
                         ("clientInfo", .obj [("name", .str "bio-mcp-host"),
                                              ("version", .str "1.0.0")])])]

/-- The `tools/list` request of `_connect_direct` (lines 170-174). -/
def toolsListRequest (rid : Nat) : Json :=
  .obj [("jsonrpc", .str "2.0"), ("id", .num rid), ("method", .str "tools/list")]

/-- The body of `BioMCPClient._connect_direct` (lines 124-182): spawn the
child process, send `initialize` and check the response (a falsy or
error-carrying response raises — for a `None` response the f-string's
`response.get` itself raises `AttributeError`), send the
`notifications/initialized` notification (nothing is read back), send
`tools/list` and store the advertised tools, then set `connected = True`.
The returned state is the state at normal return or at the raise point. -/
def connectDirectCore (st0 : ClientState) (incoming : List ReadOutcome) :
    Except PyExc Unit × ClientState × List ReadOutcome :=
  let st1 := { st0 with processAlive := true }
  let p := getNextId st1
  let st2 := p.2
  match sendRequest st2 defaultRequestTimeout (initRequest p.1) incoming with
  | (.error e, rest) => (.error e, st2, rest)
  | (.ok none, rest) =>
      (.error (.attributeError "NoneType object has no attribute get"), st2, rest)
  | (.ok (some resp), rest) =>
      if resp.pyFalsy then
        match resp.pyGet "error" (.str "Unknown error") with
        | .error e => (.error e, st2, rest)
        | .ok ev => (.error (.exception ("Initialization failed: " ++ ev.pyStr)), st2, rest)
      else
        match resp.pyContains "error" with
        | .error e => (.error e, st2, rest)
        | .ok true =>
            match resp.pyGet "error" (.str "Unknown error") with
            | .error e => (.error e, st2, rest)
            | .ok ev => (.error (.exception ("Initialization failed: " ++ ev.pyStr)), st2, rest)
        | .ok false =>
            let q := getNextId st2
            let st3 := q.2
            match sendRequest st3 defaultRequestTimeout (toolsListRequest q.1) rest with
            | (.error e, rest2) => (.error e, st3, rest2)
            | (.ok none, rest2) => (.ok (), { st3 with connected := true }, rest2)
            | (.ok (some tr), rest2) =>
                if tr.pyFalsy then
                  (.ok (), { st3 with connected := true }, rest2)
                else
                  match tr.pyContains "result" with
                  | .error e => (.error e, st3, rest2)
                  | .ok false => (.ok (), { st3 with connected := true }, rest2)
                  | .ok true =>
                      match tr.pySubscript "result" with
                      | .error e => (.error e, st3, rest2)
                      | .ok rv =>
                          match rv.pyGet "tools" (.arr []) with
                          | .error e => (.error e, st3, rest2)
                          | .ok tls =>
                              (.ok (), { st3 with connected := true, tools := tls }, rest2)

/-- Model of `BioMCPClient.connect` (lines 43-53) on the direct path: run the
handshake; on any exception, `await self.disconnect()` and return `False`. -/
def connect (st : ClientState) (incoming : List ReadOutcome) :
    Bool × ClientState × List ReadOutcome :=
  match connectDirectCore st incoming with
  | (.ok _, st1, rest) => (true, st1, rest)
  | (.error _, st1, rest) => (false, disconnect st1, rest)

/-! ## LLM clients and the manager (`llm_clients/*.py`, `llm_manager.py`) -/

/-- The configuration dataclass of `base.py` lines 24-31 (the optional
tuning fields are irrelevant to the verified properties). -/
structure LLMConfig where
  provider : String
  model : String
  apiKey : String
deriving Repr, DecidableEq, Inhabited

/-- A Python value passed positionally to a constructor. -/
inductive PyVal where
  | cfg : LLMConfig → PyVal
  | noneV : PyVal
  | other : String → PyVal
deriving Repr, DecidableEq, Inhabited

/-- The state `BaseLLMClient.__init__` builds (base.py lines 36-40). -/
structure BaseClientState where
  config : PyVal
deriving Repr, DecidableEq, Inhabited

/-- Calling `BaseLLMClient.__init__` with a list of positional arguments
(after `self`): the signature `def __init__(self, config)` (base.py line 36)
accepts exactly one, so any other count raises `TypeError` before the body
runs. -/
def callBaseInit (args : List PyVal) : Except PyExc BaseClientState :=
  match args with
  | [v] => .ok { config := v }
  | [] =>
      .error (.typeError
        "BaseLLMClient.__init__() missing 1 required positional argument: 'config'")
  | _ :: _ :: rest =>
      .error (.typeError ("BaseLLMClient.__init__() takes 2 positional arguments but "
        ++ toString (rest.length + 3) ++ " were given"))

/-- Model of `OpenAIClient.__init__` (openai_client.py lines 9-10):
`super().__init__(config, mcp_client)` passes TWO positional arguments to
`BaseLLMClient.__init__`. -/
def openAIClientInit (config : LLMConfig) (mcpClient : PyVal) : Except PyExc BaseClientState :=
  callBaseInit [PyVal.cfg config, mcpClient]

/-- Model of `GoogleClient.__init__` (google_client.py lines 8-9): likewise
`super().__init__(config, mcp_client)`. -/
def googleClientInit (config : LLMConfig) (mcpClient : PyVal) : Except PyExc BaseClientState :=
  callBaseInit [PyVal.cfg config, mcpClient]

/-- Model of `AnthropicClient.__init__` (anthropic_client.py lines 8-9):
`super().__init__(config)` — a single positional argument. -/
def anthropicClientInit (config : LLMConfig) : Except PyExc BaseClientState :=
  callBaseInit [PyVal.cfg config]

/-- Model of `AliyunClient.__init__` (aliyun_client.py lines 8-9):
`super().__init__(config)` — a single positional argument. -/
def aliyunClientInit (config : LLMConfig) : Except PyExc BaseClientState :=
  callBaseInit [PyVal.cfg config]

/-- The OpenAI block of `LLMManager._load_clients_from_env`
(llm_manager.py lines 38-52): when `OPENAI_API_KEY` is set, try
`OpenAIClient(config)` (the `mcp_client` parameter defaulting to `None`)
and register it under `"openai"`; on any exception print the failure and
register nothing.  Returns the registry and whether the
constructor-failure branch ran. -/
def loadOpenAIFromEnv (clients : List (String × BaseClientState))
    (openaiKey : Option String) (config : LLMConfig) :
    List (String × BaseClientState) × Bool :=
  match openaiKey with
  | none => (clients, false)
  | some _ =>
      match openAIClientInit config PyVal.noneV with
      | .ok c => (clients ++ [("openai", c)], false)
      | .error _ => (clients, true)

/-- The Google block of `LLMManager._load_clients_from_env`
(llm_manager.py lines 55-69), same shape as the OpenAI block. -/
def loadGoogleFromEnv (clients : List (String × BaseClientState))
    (googleKey : Option String) (config : LLMConfig) :
    List (String × BaseClientState) × Bool :=
  match googleKey with
  | none => (clients, false)
  | some _ =>
      match googleClientInit config PyVal.noneV with
      | .ok c => (clients ++ [("google", c)], false)
      | .error _ => (clients, true)

/-- One entry of an OpenAI response's `tool_calls` list:
`id`, `function.name` and the raw `function.arguments` string. -/
structure ToolCall where
  id : String
  fname : String
  fargs : String
deriving Repr, DecidableEq, Inhabited

/-- The message of the first OpenAI chat-completions response:
its text content and its (possibly empty) `tool_calls` list. -/
structure FirstReply where
  content : Option String
  toolCalls : List ToolCall
deriving Repr, DecidableEq, Inhabited

/-- The fields of the returned `LLMResponse` relevant here: the final
`content` and the `tool_calls` count recorded in the metadata. -/
structure LLMResponseRec where
  content : Option String
  toolCallsCount : Option Nat
deriving Repr, DecidableEq, Inhabited

/-- The tool-execution loop of `OpenAIClient.chat_completion`
(openai_client.py lines 81-96): for each tool call, parse the argument
string (`json.loads`, modeled by `parseArgs`) and invoke
`self.call_mcp_tool` (modeled by the `invoke` oracle); append
`{"tool_call_id": .., "role": "tool", "content": json.dumps(result)}`, or
`json.dumps({"error": str(e)})` when anything in the per-call `try` body
raises.  The per-call `except` means a failing call never stops the loop.
Each produced pair is `(tool_call_id, content)`. -/
def execToolCalls (parseArgs : String → Except PyExc Json)
    (invoke : String → Json → Except PyExc Json) :
    List ToolCall → List (String × String)
  | [] => []
  | tc :: rest =>
      let entry :=
        match parseArgs tc.fargs >>= fun a => invoke tc.fname a with
        | .ok r => (tc.id, r.dumps)
        | .error e => (tc.id, (Json.obj [("error", .str e.message)]).dumps)
      entry :: execToolCalls parseArgs invoke rest

/-- The non-streaming path of `OpenAIClient.chat_completion`
(openai_client.py lines 58-144).  The two OpenAI API round-trips are
oracles: `first` is the message of the initial response, and `followUp`
yields the content of the second response given the serialized tool results
appended to the conversation (the rest of the resubmitted message list —
the original messages and the assistant turn — is fixed by the
conversation and not varied here).  With the provider API modeled as
total, the only fallible steps are the per-call tool invocations, which
the loop absorbs call by call. -/
def chatCompletion (parseArgs : String → Except PyExc Json)
    (invoke : String → Json → Except PyExc Json)
    (first : FirstReply)
    (followUp : List (String × String) → Option String) :
    Except PyExc LLMResponseRec :=
  match first.toolCalls with
  | [] => .ok { content := first.content, toolCallsCount := none }
  | tc :: rest =>
      let toolResults := execToolCalls parseArgs invoke (tc :: rest)
      .ok { content := followUp toolResults, toolCallsCount := some (tc :: rest).length }

/-- One result entry of `GoogleClient._execute_function_calls`:
`{"name", "result"}` on success, `{"name", "error"}` on failure. -/
inductive GFuncResult where
  | ok : String → Json → GFuncResult
  | err : String → String → GFuncResult
deriving Repr, DecidableEq, Inhabited

/-- Model of `GoogleClient._execute_function_calls` (google_client.py lines
280-297): invoke each extracted function call; a per-call exception is
recorded as `{"name": .., "error": str(e)}` and the loop continues. -/
def executeFunctionCalls (invoke : String → Json → Except PyExc Json) :
    List (String × Json) → List GFuncResult
  | [] => []
  | (n, a) :: rest =>
      (match invoke n a with
       | .ok r => GFuncResult.ok n r
       | .error e => GFuncResult.err n e.message) :: executeFunctionCalls invoke rest

/-- A tool descriptor as the spec's data model has it: name, description
and input schema. -/
structure ToolDescriptor where
  name : String
  description : String
  inputSchema : Json
deriving Repr, DecidableEq, Inhabited

/-- The per-tool dictionary the converters consume —
`BioMCPClient.get_available_tools` (bio_mcp_client.py lines 248-257) maps a
descriptor to `{"name", "description", "parameters"}`, `parameters` being
the descriptor's input schema passed through. -/
def toolDictOf (t : ToolDescriptor) : Json :=
  .obj [("name", .str t.name), ("description", .str t.description),
        ("parameters", t.inputSchema)]

/-- The per-tool body of `OpenAIClient._convert_mcp_tools_to_openai`
(openai_client.py lines 216-225). -/
def convertToolToOpenAI (tool : Json) : Except PyExc Json := do
  let n ← tool.pySubscript "name"
  let d ← tool.pySubscript "description"
  let p ← tool.pySubscript "parameters"
  pure (.obj [("type", .str "function"),
              ("function", .obj [("name", n), ("description", d), ("parameters", p)])])

/-- The per-tool body of `GoogleClient._convert_mcp_tools_to_gemini`
(google_client.py lines 246-252). -/
def convertToolToGemini (tool : Json) : Except PyExc Json := do
  let n ← tool.pySubscript "name"
  let d ← tool.pySubscript "description"
  let p ← tool.pySubscript "parameters"
  pure (.obj [("name", n), ("description", d), ("parameters", p)])

/-- Reading a name back from an OpenAI tool entry. -/
def openAIDeclName (decl : Json) : Option Json :=
  (decl.getField? "function").bind fun f => f.getField? "name"

/-- Reading a description back from an OpenAI tool entry. -/
def openAIDeclDescription (decl : Json) : Option Json :=
  (decl.getField? "function").bind fun f => f.getField? "description"

/-- Reading a name back from a Gemini function declaration. -/
def geminiDeclName (decl : Json) : Option Json :=
  decl.getField? "name"

/-- Reading a description back from a Gemini function declaration. -/
def geminiDeclDescription (decl : Json) : Option Json :=
  decl.getField? "description"

/-! ## The server's pKa handler (`BioMCPServer._calculate_pka`)

`server.py` lines 631-731.  The guard returns before the `try` block (file
not found, wrong bio type) are upstream of the verified property and not
modeled; the model starts at the PROPKA result.  Numeric values appearing
only inside f-string interpolations (`ph`, pKa floats, `:+.2f` renderings)
are modeled as the strings they render to, which is the only use the
handler makes of them. -/

/-- One entry of `summary["significant_shifts"]` as the handler reads it. -/
structure ShiftEntry where
  residue : String
  shiftFmt : String
  direction : String
deriving Repr, DecidableEq, Inhabited

/-- One entry of `summary["statistics"]` as the handler reads it. -/
structure StatEntry where
  residue : String
  count : Nat
  averagePka : String
  standardPka : String
  averageShiftFmt : String
  rangeLo : String
  rangeHi : String
deriving Repr, DecidableEq, Inhabited

/-- One entry of `results["ionizable_groups"]` as the handler reads it
(`residue_number` read via `.get(.., '?')`, already defaulted here). -/
structure GroupEntry where
  residue : String
  chain : String
  residueNumber : String
  pkaFmt : String
deriving Repr, DecidableEq, Inhabited

/-- The dictionary `PropkaTool.calculate_pka` returns on success
(propka_tool.py lines 117-125), projected to what the handler reads:
`input_file`, `ph`, `chains_analyzed`, the optional `residue_range`
(start/end renderings), the summary counters and lists, and
`results["ionizable_groups"]`. -/
structure PropkaSuccess where
  inputFile : String
  phFmt : String
  chainsAnalyzed : String
  residueRange : Option (String × String)
  totalIonizable : Nat
  uniqueTypes : Nat
  significantShifts : List ShiftEntry
  statistics : List StatEntry
  ionizableGroups : List GroupEntry
deriving Repr, DecidableEq, Inhabited

/-- The line the shifts loop appends per entry (server.py line 688). -/
def shiftLine (e : ShiftEntry) : String :=
  "• " ++ e.residue ++ ": " ++ e.shiftFmt ++ " (" ++ e.direction ++ " than standard)\n"

/-- The four lines the statistics loop appends per entry (lines 695-698). -/
def statLine (e : StatEntry) : String :=
  "• **" ++ e.residue ++ "** (" ++ toString e.count ++ " residues):\n"
    ++ "  - Average pKa: " ++ e.averagePka ++ " (standard: " ++ e.standardPka ++ ")\n"
    ++ "  - Average shift: " ++ e.averageShiftFmt ++ "\n"
    ++ "  - Range: " ++ e.rangeLo ++ " - " ++ e.rangeHi ++ "\n"

/-- The line the groups loop appends per entry (line 705). -/
def groupLine (g : GroupEntry) : String :=
  "• " ++ g.residue ++ " " ++ g.chain ++ ":" ++ g.residueNumber
    ++ " - pKa: " ++ g.pkaFmt ++ "\n"

/-- The `output` string built by the success path of `_calculate_pka`
(server.py lines 669-717), up to and excluding the line-719 guard. -/
def formatPkaOutput (r : PropkaSuccess) : String :=
  "**PROPKA pKa Calculation Results**\n\n"
    ++ "• File: " ++ r.inputFile ++ "\n"
    ++ "• pH: " ++ r.phFmt ++ "\n"
    ++ "• Chains analyzed: " ++ r.chainsAnalyzed ++ "\n"
    ++ (match r.residueRange with
        | some se => "• Residue range: " ++ se.1 ++ "-" ++ se.2 ++ "\n"
        | none => "")
    ++ "\n**Summary:**\n"
    ++ "• Total ionizable groups: " ++ toString r.totalIonizable ++ "\n"
    ++ "• Unique residue types: " ++ toString r.uniqueTypes ++ "\n"
    ++ (if r.significantShifts.isEmpty then ""
        else "\n**Significant pKa Shifts (>1.0 units):**\n"
          ++ String.join (r.significantShifts.map shiftLine))
    ++ (if r.statistics.isEmpty then ""
        else "\n**Statistics by Residue Type:**\n"
          ++ String.join (r.statistics.map statLine))
    ++ (if r.ionizableGroups.isEmpty then ""
        else "\n**Individual pKa Values:**\n"
          ++ String.join ((r.ionizableGroups.take 20).map groupLine)
          ++ (if r.ionizableGroups.length > 20 then
                "... and " ++ toString (r.ionizableGroups.length - 20) ++ " more residues\n"
              else ""))
    ++ "\n🧬 **Biological Insights:**\n"
    ++ (if r.significantShifts.isEmpty then
          "• pKa values are **close to standard** - minimal environmental perturbation\n"
            ++ "• Residues likely **surface-exposed** or in **typical environments**\n"
        else
          "• Significant pKa shifts indicate **protein microenvironment effects**\n"
            ++ "• Consider **electrostatic interactions** and **hydrogen bonding**\n")

/-- Every name that appears as an assignment or loop target (or parameter)
in `BioMCPServer._calculate_pka` (server.py lines 631-731).  `total_groups`
is not among them, and server.py defines no class- or module-level binding
of that name either. -/
def pkaLocalNames : List String :=
  ["self", "args", "file_id", "ph", "chains", "residue_range", "file_path",
   "file_info", "structure_name", "result", "error_msg", "output", "summary",
   "significant_shifts", "shift", "stats", "residue", "stat",
   "ionizable_groups", "group", "e"]

/-- Evaluating a bare name inside the handler: a name bound in no enclosing
scope raises `NameError`.  The integer returned for bound names is
immaterial here — the only bare name evaluated as the line-719 guard is
`total_groups`. -/
def evalPkaName (n : String) : Except PyExc Int :=
  if pkaLocalNames.contains n then .ok 0 else .error (.nameError n)

/-- The "Next Steps" block appended when the line-719 guard is taken
(server.py lines 720-723). -/
def pkaNextStepsText : String :=
  "\n🔬 **Next Steps:**\n"
    ++ "• Use `visualize_structure` to see ionizable residues\n"
    ++ "• Try `launch_pymol_gui` for interactive exploration\n"
    ++ "• Consider different pH values for protonation analysis\n"

/-- The success path of `_calculate_pka` from line 669 to its `return`
(line 725): build `output`, then evaluate the bare name `total_groups` in
the guard `if total_groups > 0:` (line 719). -/
def pkaSuccessBody (r : PropkaSuccess) : Except PyExc String := do
  let output := formatPkaOutput r
  let totalGroups ← evalPkaName "total_groups"
  pure (if totalGroups > 0 then output ++ pkaNextStepsText else output)

/-- The PROPKA result as the handler branches on it:
`result["success"]` false with the already-defaulted
`result.get('error', 'Unknown error')` message, or the success shape. -/
inductive PropkaOutcome where
  | failure : String → PropkaOutcome
  | success : PropkaSuccess → PropkaOutcome
deriving Repr, DecidableEq, Inhabited

/-- The text of the `not result["success"]` branch (lines 663-666). -/
def propkaFailedText (msg : String) : String :=
  "❌ **PROPKA calculation failed**\n\n**Error:** " ++ msg
    ++ "\n\n🔧 **Troubleshooting:**\n• Ensure PROPKA3 is installed: `pip install propka`\n"
    ++ "• Check PDB file format and structure\n• Verify ionizable residues are present\n"
    ++ "• Try with default parameters first"

/-- The text of the `except Exception` handler (lines 727-731). -/
def calcErrorText (msg : String) : String :=
  "💥 **Calculation error:** " ++ msg
    ++ "\n\n🔧 **Common issues:**\n• PROPKA3 not installed\n• Invalid PDB format\n"
    ++ "• No ionizable residues found\n• File permission issues"

/-- The `try`/`except` of `_calculate_pka` from the PROPKA result on
(lines 656-731): the failure branch returns the troubleshooting text; the
success branch runs `pkaSuccessBody`, and any exception it raises is
caught and rendered as the calculation-error text. -/
def calculatePkaText (outcome : PropkaOutcome) : String :=
  match outcome with
  | .failure msg => propkaFailedText msg
  | .success r =>
      match pkaSuccessBody r with
      | .ok out => out
      | .error e => calcErrorText e.message

/-! ## Concrete sessions and messages used in witnesses and counterexamples -/

/-- A session that has completed the handshake: connected, child process
alive, `request_id` still at its initial value 1. -/
def readyClientState : ClientState :=
  { connected := true, processAlive := true, requestId := 1, tools := .arr [] }

/-- A request carrying id 2. -/
def reqWithId2 : Json :=
  .obj [("jsonrpc", .str "2.0"), ("id", .num 2), ("method", .str "tools/list")]

/-- A response carrying id 99 — not the id of `reqWithId2`. -/
def respWithId99 : Json :=
  .obj [("jsonrpc", .str "2.0"), ("id", .num 99),
        ("result", .obj [("tools", .arr [])])]

/-- A tools/call response carrying an error object with message "boom". -/
def errorRespBoom : Json :=
  .obj [("jsonrpc", .str "2.0"), ("id", .num 2),
        ("error", .obj [("code", .num (-32000)), ("message", .str "boom")])]

/-- A successful tools/call response whose only content block is not
text-typed. -/
def imageOnlyResp : Json :=
  .obj [("jsonrpc", .str "2.0"), ("id", .num 2),
        ("result", .obj [("content", .arr [.obj [("type", .str "image")]])])]

/-- The spec's scenario response:
`{"content":[{"type":"text","text":"pKa: 4.1"}]}`. -/
def pkaScenarioResp : Json :=
  .obj [("jsonrpc", .str "2.0"), ("id", .num 2),
        ("result", .obj [("content",
          .arr [.obj [("type", .str "text"), ("text", .str "pKa: 4.1")]])])]

/-- The spec's scenario: the server answers `initialize` with
`{"error":{"code":-32000,"message":"boom"}}`. -/
def initErrorResp : Json :=
  .obj [("error", .obj [("code", .num (-32000)), ("message", .str "boom")])]

/-! ## C10 — request ids are unique and strictly increasing -/

/-- Every id produced by `idSeq` exceeds the session's current counter. -/
theorem idSeq_lt (n : Nat) : ∀ (st : ClientState), ∀ x ∈ idSeq st n, st.requestId < x := by
  induction n with
  | zero => intro st x hx; simp [idSeq] at hx
  | succ k ih =>
      intro st x hx
      simp only [idSeq, getNextId, List.mem_cons] at hx
      rcases hx with h | h
      · omega
      · have := ih _ x h
        simp only at this
        omega

/-- C10: across any sequence of requests on one `BioMCPClient` session, the
ids allocated by successive `_get_next_id` calls are strictly monotonically
increasing and pairwise distinct — no id is ever reused within the
session. -/
theorem requestIds_strictly_increasing (st : ClientState) (n : Nat) :
    List.Pairwise (· < ·) (idSeq st n) ∧ (idSeq st n).Nodup := by
  have hp : ∀ (m : Nat) (s : ClientState), List.Pairwise (· < ·) (idSeq s m) := by
    intro m
    induction m with
    | zero => intro s; simp [idSeq]
    | succ k ih =>
        intro s
        simp only [idSeq, getNextId, List.pairwise_cons]
        refine ⟨?_, ih _⟩
        intro b hb
        have := idSeq_lt k _ b hb
        simp only at this
        omega
  refine ⟨hp n st, ?_⟩
  exact List.Pairwise.imp (fun h => Nat.ne_of_lt h) (hp n st)

/-! ## C1 — response correlation -/

/-- C1 counterexample: `_send_request` hands back the next line from the
transport regardless of its id — a response with id 99 is returned for the
request with id 2, so the response returned for a request is NOT in
general the response whose id equals the request's id. -/
theorem sendRequest_not_id_matched :
    (sendRequest readyClientState defaultRequestTimeout reqWithId2 [.line respWithId99]).1
        = .ok (some respWithId99)
      ∧ respWithId99.getField? "id" = some (.num 99)
      ∧ reqWithId2.getField? "id" = some (.num 2)
      ∧ respWithId99.getField? "id" ≠ reqWithId2.getField? "id" := by
  refine ⟨rfl, rfl, rfl, by decide⟩

/-- C1 (amended): `_send_request` returns whatever line arrives next on the
transport, independent of the request's id (lock-step FIFO read, no
id-matching); consequently the response returned carries the request's id
exactly when the server replies in order — when the next incoming line's
id is the request's id. -/
theorem sendRequest_returns_next_line (st : ClientState) (t : Nat) (req j : Json)
    (rest : List ReadOutcome) (hp : st.processAlive = true) :
    sendRequest st t req (.line j :: rest) = (.ok (some j), rest)
      ∧ (j.getField? "id" = req.getField? "id" →
          ∃ resp, (sendRequest st t req (.line j :: rest)).1 = .ok (some resp)
            ∧ resp.getField? "id" = req.getField? "id") := by
  constructor
  · simp [sendRequest, hp]
  · intro hid
    exact ⟨j, by simp [sendRequest, hp], hid⟩

/-- C1 witness: at a live session, the in-order reply to `reqWithId2` is
returned with its matching id. -/
theorem sendRequest_returns_next_line_witness :
    sendRequest readyClientState 10 reqWithId2
        [.line (.obj [("jsonrpc", .str "2.0"), ("id", .num 2), ("result", .obj [])])]
      = (.ok (some (.obj [("jsonrpc", .str "2.0"), ("id", .num 2), ("result", .obj [])])), []) :=
  (sendRequest_returns_next_line readyClientState 10 reqWithId2
    (.obj [("jsonrpc", .str "2.0"), ("id", .num 2), ("result", .obj [])]) [] rfl).1

/-! ## C7 — a timeout is local to one request -/

/-- C7: when no response line arrives within the bound, the request fails
with the timeout error (default bound 10 seconds); exactly one transport
read is consumed (the request is abandoned, not retried), the timeout is
absorbed by `call_tool` into a failure record, and the session state stays
connected with the child process alive — usable for subsequent calls. -/
theorem timeout_is_local (st : ClientState) (toolName : String) (args : Json)
    (rest : List ReadOutcome) (hc : st.connected = true) (hp : st.processAlive = true) :
    sendRequest st defaultRequestTimeout (toolCallRequest (st.requestId + 1) toolName args)
        (.timeout :: rest) = (.error (.timeoutError 10), rest)
      ∧ callTool st toolName args (.timeout :: rest)
          = (.ok { success := false,
                   error := some (.str "Request timed out after 10.0 seconds"),
                   tool := toolName, arguments := args },
             { st with requestId := st.requestId + 1 }, rest)
      ∧ ({ st with requestId := st.requestId + 1 } : ClientState).connected = true
      ∧ ({ st with requestId := st.requestId + 1 } : ClientState).processAlive = true := by
  refine ⟨by simp [sendRequest, hp, defaultRequestTimeout], ?_, by simp [hc], by simp [hp]⟩
  simp only [callTool, callToolDirect, getNextId, sendRequest, hc, hp, PyExc.message,
    if_true, reduceIte]
  rfl

/-- C7 witness: a timed-out `tools/list` call on a ready session. -/
theorem timeout_is_local_witness :
    callTool readyClientState "tools/list" (.obj []) [.timeout]
      = (.ok { success := false,
               error := some (.str "Request timed out after 10.0 seconds"),
               tool := "tools/list", arguments := .obj [] },
         { readyClientState with requestId := 2 }, []) :=
  (timeout_is_local readyClientState "tools/list" (.obj []) [] rfl rfl).2.1

/-! ## C2 — call_tool absorbs failures into result records -/

/-- C2 counterexample: on a session that is not connected, `call_tool`
raises `RuntimeError` (bio_mcp_client.py lines 261-262) instead of
returning a result record — so it is not true of every invocation that the
caller receives a result object rather than an exception. -/
theorem callTool_raises_when_disconnected :
    (callTool initialClientState "calculate_pka" (.obj []) []).1
      = .error (.runtimeError "Not connected to Bio MCP Server") := rfl

/-- C2 (amended): when the session is connected, `call_tool` never raises —
every transport outcome yields a result record; and when the server's
tools/call response carries an `error` object with a string `message`, the
record has `success = false` and its error string equal to that message
(hence non-empty exactly when the server's message is non-empty). -/
theorem callTool_total_when_connected (st : ClientState) (toolName : String) (args : Json)
    (incoming : List ReadOutcome) (hc : st.connected = true) :
    (∃ rec st1 rest, callTool st toolName args incoming = (.ok rec, st1, rest))
      ∧ ∀ (fs eo : List (String × Json)) (rest : List ReadOutcome) (m : String),
          st.processAlive = true →
          incoming = .line (.obj fs) :: rest →
          fs.lookup "error" = some (.obj eo) →
          eo.lookup "message" = some (.str m) →
          callTool st toolName args incoming
            = (.ok { success := false, error := some (.str m),
                     tool := toolName, arguments := args },
               { st with requestId := st.requestId + 1 }, rest) := by
  constructor
  · rcases h : callToolDirect st toolName args incoming with ⟨res, st1, rest⟩
    cases res with
    | error e =>
        refine ⟨{ success := false, error := some (.str e.message),
                  tool := toolName, arguments := args }, st1, rest, ?_⟩
        simp [callTool, hc, h]
    | ok r =>
        refine ⟨r, st1, rest, ?_⟩
        simp [callTool, hc, h]
  · intro fs eo rest m hp hin herr hmsg
    subst hin
    have hfs : fs.isEmpty = false := by
      cases fs with
      | nil => simp [List.lookup] at herr
      | cons a l => rfl
    simp [callTool, callToolDirect, getNextId, sendRequest, hc, hp, handleToolResponse,
      Json.pyFalsy, Json.pyContains, Json.pySubscript, Json.pyGet, hfs, herr, hmsg,
      Bind.bind, Except.bind, Functor.map, Except.map, Pure.pure, Except.pure]

/-- C2 witness: a connected session receiving the error-carrying response
`errorRespBoom` yields the failure record with error "boom". -/
theorem callTool_total_when_connected_witness :
    callTool readyClientState "calculate_pka" (.obj []) [.line errorRespBoom]
      = (.ok { success := false, error := some (.str "boom"),
               tool := "calculate_pka", arguments := .obj [] },
         { readyClientState with requestId := 2 }, []) :=
  (callTool_total_when_connected readyClientState "calculate_pka" (.obj [])
      [.line errorRespBoom] rfl).2
    [("jsonrpc", .str "2.0"), ("id", .num 2),
     ("error", .obj [("code", .num (-32000)), ("message", .str "boom")])]
    [("code", .num (-32000)), ("message", .str "boom")]
    [] "boom" rfl rfl rfl rfl

/-! ## C6 — text extraction on success -/

/-- C6 counterexample: a successful tools/call response whose only content
block is not text-typed — the concatenation of text fields is the empty
string, yet `call_tool` returns `str(result)` as content, not that
(empty) concatenation. -/
theorem callTool_content_not_concatenation :
    (callTool readyClientState "visualize_structure" (.obj []) [.line imageOnlyResp]).1
      = .ok { success := true,
              result := some (.str "\x7b'content': [\x7b'type': 'image'\x7d]\x7d"),
              tool := "visualize_structure", arguments := .obj [],
              rawResult := some (.obj [("content", .arr [.obj [("type", .str "image")]])]) }
      ∧ extractTextBlocks [.obj [("type", .str "image")]] = .ok ""
      ∧ ("\x7b'content': [\x7b'type': 'image'\x7d]\x7d" : String) ≠ "" := by
  refine ⟨rfl, rfl, by decide⟩

/-- C6 (amended): on a successful tools/call response whose result carries
a content array, `call_tool` returns `success = true`, preserves the raw
result, and returns as content the concatenation (in order) of the text
fields of the text-typed blocks whenever that concatenation is non-empty;
when the concatenation is empty, `str(result)` is substituted
(`content_text or str(result)`, line 347). -/
theorem callTool_success_extraction (st : ClientState) (toolName : String) (args : Json)
    (rest : List ReadOutcome) (fs gs : List (String × Json)) (items : List Json) (s : String)
    (hc : st.connected = true) (hp : st.processAlive = true)
    (herr : fs.lookup "error" = none)
    (hres : fs.lookup "result" = some (.obj gs))
    (hcont : gs.lookup "content" = some (.arr items))
    (hex : extractTextBlocks items = .ok s) :
    callTool st toolName args (.line (.obj fs) :: rest)
        = (.ok { success := true,
                 result := some (.str (if s == "" then (Json.obj gs).pyStr else s)),
                 tool := toolName, arguments := args, rawResult := some (.obj gs) },
           { st with requestId := st.requestId + 1 }, rest)
      ∧ (s ≠ "" →
          callTool st toolName args (.line (.obj fs) :: rest)
            = (.ok { success := true, result := some (.str s),
                     tool := toolName, arguments := args, rawResult := some (.obj gs) },
               { st with requestId := st.requestId + 1 }, rest)) := by
  have hfs : fs.isEmpty = false := by
    cases fs with
    | nil => simp [List.lookup] at hres
    | cons a l => rfl
  have hmain : callTool st toolName args (.line (.obj fs) :: rest)
      = (.ok { success := true,
               result := some (.str (if s == "" then (Json.obj gs).pyStr else s)),
               tool := toolName, arguments := args, rawResult := some (.obj gs) },
         { st with requestId := st.requestId + 1 }, rest) := by
    simp [callTool, callToolDirect, getNextId, sendRequest, hc, hp, handleToolResponse,
      Json.pyFalsy, Json.pyContains, Json.pySubscript, Json.pyIter, hfs, herr, hres,
      hcont, hex, Bind.bind, Except.bind, Functor.map, Except.map, Pure.pure, Except.pure]
  refine ⟨hmain, ?_⟩
  intro hne
  rw [hmain]
  simp [hne]

/-- C6 witness: the spec's scenario — `calculate_pka` against a server
returning `{"content":[{"type":"text","text":"pKa: 4.1"}]}` gives a
success record with content "pKa: 4.1". -/
theorem callTool_success_extraction_witness :
    callTool readyClientState "calculate_pka"
        (.obj [("file_id", .str "x1"), ("ph", .num 7)]) [.line pkaScenarioResp]
      = (.ok { success := true, result := some (.str "pKa: 4.1"),
               tool := "calculate_pka",
               arguments := .obj [("file_id", .str "x1"), ("ph", .num 7)],
               rawResult := some (.obj [("content",
                 .arr [.obj [("type", .str "text"), ("text", .str "pKa: 4.1")]])]) },
         { readyClientState with requestId := 2 }, []) :=
  (callTool_success_extraction readyClientState "calculate_pka"
      (.obj [("file_id", .str "x1"), ("ph", .num 7)]) []
      [("jsonrpc", .str "2.0"), ("id", .num 2),
       ("result", .obj [("content",
         .arr [.obj [("type", .str "text"), ("text", .str "pKa: 4.1")]])])]
      [("content", .arr [.obj [("type", .str "text"), ("text", .str "pKa: 4.1")]])]
      [.obj [("type", .str "text"), ("text", .str "pKa: 4.1")]]
      "pKa: 4.1" rfl rfl rfl rfl rfl rfl).2 (by decide)

/-! ## C3 — handshake failure tears the session down -/

/-- C3: if any handshake step fails (for example the server answers
`initialize` with an error object, or a step raises or times out — i.e.
the `_connect_direct` body raises), `connect` returns `False`, the session
ends with `connected = false`, and the child process has been torn down
before `connect` returns. -/
theorem connect_teardown_on_failure (st : ClientState) (incoming : List ReadOutcome)
    (h : ∃ e, (connectDirectCore st incoming).1 = .error e) :
    (connect st incoming).1 = false
      ∧ ((connect st incoming).2.1).connected = false
      ∧ ((connect st incoming).2.1).processAlive = false := by
  obtain ⟨e, he⟩ := h
  rcases hcore : connectDirectCore st incoming with ⟨res, st1, rest⟩
  rw [hcore] at he
  simp only at he
  subst he
  simp [connect, hcore, disconnect]

/-- C3 witness: the spec's scenario — the server answers `initialize` with
`{"error":{"code":-32000,"message":"boom"}}`; `connect` fails and leaves a
closed, torn-down session. -/
theorem connect_teardown_on_failure_witness :
    (connect initialClientState [.line initErrorResp]).1 = false
      ∧ ((connect initialClientState [.line initErrorResp]).2.1).connected = false
      ∧ ((connect initialClientState [.line initErrorResp]).2.1).processAlive = false :=
  connect_teardown_on_failure initialClientState [.line initErrorResp]
    ⟨.exception "Initialization failed: \x7b'code': -32000, 'message': 'boom'\x7d", rfl⟩

/-! ## C4 — OpenAI and Google client constructors always raise -/

/-- C4: for every configuration, constructing `OpenAIClient` or
`GoogleClient` raises `TypeError` — each passes `(config, mcp_client)` to
`BaseLLMClient.__init__`, which accepts only `config` — so
`LLMManager._load_clients_from_env` can never register an "openai" or
"google" client: with the API key set, the constructor-failure branch is
always taken and the registry is unchanged. -/
theorem openai_google_constructors_raise (config : LLMConfig) (mcp : PyVal)
    (clients : List (String × BaseClientState)) (key1 key2 : String) :
    openAIClientInit config mcp
        = .error (.typeError
            "BaseLLMClient.__init__() takes 2 positional arguments but 3 were given")
      ∧ googleClientInit config mcp
          = .error (.typeError
              "BaseLLMClient.__init__() takes 2 positional arguments but 3 were given")
      ∧ loadOpenAIFromEnv clients (some key1) config = (clients, true)
      ∧ loadGoogleFromEnv clients (some key2) config = (clients, true) :=
  ⟨rfl, rfl, rfl, rfl⟩

/-! ## C9 — tool descriptors survive provider translation -/

/-- C9: translating a tool descriptor into a provider's
function-declaration format (OpenAI tool entry or Gemini function
declaration) and reading the declaration back preserves name and
description exactly; in particular the descriptor
`{name:"ping", description:"d", input_schema:{}}` round-trips with name
and description unchanged. -/
theorem tool_translation_preserves_name_description (t : ToolDescriptor) :
    (∃ decl, convertToolToOpenAI (toolDictOf t) = .ok decl
        ∧ openAIDeclName decl = some (.str t.name)
        ∧ openAIDeclDescription decl = some (.str t.description))
      ∧ (∃ decl, convertToolToGemini (toolDictOf t) = .ok decl
        ∧ geminiDeclName decl = some (.str t.name)
        ∧ geminiDeclDescription decl = some (.str t.description))
      ∧ convertToolToOpenAI (toolDictOf { name := "ping", description := "d", inputSchema := .obj [] })
          = .ok (.obj [("type", .str "function"),
                ("function", .obj [("name", .str "ping"), ("description", .str "d"),
                                   ("parameters", .obj [])])])
      ∧ convertToolToGemini (toolDictOf { name := "ping", description := "d", inputSchema := .obj [] })
          = .ok (.obj [("name", .str "ping"), ("description", .str "d"),
                       ("parameters", .obj [])]) := by
  refine ⟨⟨.obj [("type", .str "function"),
            ("function", .obj [("name", .str t.name), ("description", .str t.description),
                               ("parameters", t.inputSchema)])], rfl, rfl, rfl⟩,
          ⟨.obj [("name", .str t.name), ("description", .str t.description),
                 ("parameters", t.inputSchema)], rfl, rfl, rfl⟩,
          rfl, rfl⟩

/-! ## C8 — per-call tool failures are absorbed by the adapters -/

/-- The OpenAI tool-execution loop is an independent per-call map: each
tool call contributes exactly one `(tool_call_id, content)` entry computed
from its own invocation alone. -/
theorem execToolCalls_eq_map (parseArgs : String → Except PyExc Json)
    (invoke : String → Json → Except PyExc Json) (tcs : List ToolCall) :
    execToolCalls parseArgs invoke tcs
      = tcs.map (fun tc =>
          match parseArgs tc.fargs >>= fun a => invoke tc.fname a with
          | .ok r => (tc.id, r.dumps)
          | .error e => (tc.id, (Json.obj [("error", .str e.message)]).dumps)) := by
  induction tcs with
  | nil => rfl
  | cons tc rest ih => simp [execToolCalls, ih]

/-- The Gemini function-call loop is likewise an independent per-call map. -/
theorem executeFunctionCalls_eq_map (invoke : String → Json → Except PyExc Json)
    (calls : List (String × Json)) :
    executeFunctionCalls invoke calls
      = calls.map (fun c =>
          match invoke c.1 c.2 with
          | .ok r => GFuncResult.ok c.1 r
          | .error e => GFuncResult.err c.1 e.message) := by
  induction calls with
  | nil => rfl
  | cons c rest ih =>
      rcases c with ⟨n, a⟩
      simp [executeFunctionCalls, ih]

/-- C8: when the model's first reply carries function-call intents and
some invocation fails, the failure is embedded as an error string in that
call's entry while every other call still executes (one entry per intent,
each computed from its own invocation alone — `execToolCalls` is a map);
the serialized results are submitted in a follow-up turn, and
`chat_completion` returns the follow-up's textual answer as non-empty
final content instead of raising.  The Gemini execution loop
(`_execute_function_calls`) absorbs per-call failures the same way. -/
theorem chatCompletion_tool_failure_absorbed
    (parseArgs : String → Except PyExc Json) (invoke : String → Json → Except PyExc Json)
    (first : FirstReply) (followUp : List (String × String) → Option String) (ans : String)
    (hcalls : first.toolCalls ≠ [])
    (hfu : followUp (execToolCalls parseArgs invoke first.toolCalls) = some ans)
    (hne : ans ≠ "") :
    chatCompletion parseArgs invoke first followUp
        = .ok { content := some ans, toolCallsCount := some first.toolCalls.length }
      ∧ (execToolCalls parseArgs invoke first.toolCalls).length = first.toolCalls.length
      ∧ execToolCalls parseArgs invoke first.toolCalls
          = first.toolCalls.map (fun tc =>
              match parseArgs tc.fargs >>= fun a => invoke tc.fname a with
              | .ok r => (tc.id, r.dumps)
              | .error e => (tc.id, (Json.obj [("error", .str e.message)]).dumps))
      ∧ ans ≠ ""
      ∧ ∀ (calls : List (String × Json)),
          executeFunctionCalls invoke calls
            = calls.map (fun c =>
                match invoke c.1 c.2 with
                | .ok r => GFuncResult.ok c.1 r
                | .error e => GFuncResult.err c.1 e.message) := by
  refine ⟨?_, ?_, execToolCalls_eq_map parseArgs invoke first.toolCalls, hne,
    executeFunctionCalls_eq_map invoke⟩
  · rcases hfc : first.toolCalls with _ | ⟨tc, rest⟩
    · exact absurd hfc hcalls
    · rw [hfc] at hfu
      simp [chatCompletion, hfc, hfu]
  · rw [execToolCalls_eq_map]
    exact List.length_map _ _

set_option maxRecDepth 20000 in
/-- C8 witness: two intents, of which the first fails server-side: the
error is embedded in the first entry, the second call still runs, and the
follow-up answer is returned as the final content. -/
theorem chatCompletion_tool_failure_absorbed_witness :
    chatCompletion (fun _ => .ok (.obj []))
        (fun n _ => if n == "calculate_pka" then .error (.exception "PROPKA crashed")
                    else .ok (.obj [("ok", .bool true)]))
        { content := some "",
          toolCalls := [{ id := "c1", fname := "calculate_pka", fargs := "\x7b\x7d" },
                        { id := "c2", fname := "list_files", fargs := "\x7b\x7d" }] }
        (fun _ => some "The first tool failed; here is what I can say.")
      = .ok { content := some "The first tool failed; here is what I can say.",
              toolCallsCount := some 2 }
      ∧ execToolCalls (fun _ => .ok (.obj []))
          (fun n _ => if n == "calculate_pka" then .error (.exception "PROPKA crashed")
                      else .ok (.obj [("ok", .bool true)]))
          [{ id := "c1", fname := "calculate_pka", fargs := "\x7b\x7d" },
           { id := "c2", fname := "list_files", fargs := "\x7b\x7d" }]
        = [("c1", "\x7b\"error\": \"PROPKA crashed\"\x7d"), ("c2", "\x7b\"ok\": true\x7d")] := by
  refine ⟨?_, rfl⟩
  exact (chatCompletion_tool_failure_absorbed (fun _ => .ok (.obj []))
    (fun n _ => if n == "calculate_pka" then .error (.exception "PROPKA crashed")
                else .ok (.obj [("ok", .bool true)]))
    { content := some "",
      toolCalls := [{ id := "c1", fname := "calculate_pka", fargs := "\x7b\x7d" },
                    { id := "c2", fname := "list_files", fargs := "\x7b\x7d" }] }
    (fun _ => some "The first tool failed; here is what I can say.")
    "The first tool failed; here is what I can say."
    (by simp) rfl (by decide)).1

/-! ## C5 — the pKa handler's success path always degrades to an error -/

/-- C5: whenever the underlying PROPKA calculation returns success, the
success path of `_calculate_pka` evaluates the undefined name
`total_groups` (line 719); the resulting `NameError` is caught and the
handler returns the calculation-error text instead of the formatted pKa
results — the successful-result formatting is never delivered. -/
theorem calculatePka_total_groups_nameError (r : PropkaSuccess) :
    pkaSuccessBody r = .error (.nameError "total_groups")
      ∧ calculatePkaText (.success r)
          = calcErrorText "name 'total_groups' is not defined"
      ∧ (∃ t, calculatePkaText (.success r) = "💥 **Calculation error:**" ++ t)
      ∧ ∀ out, pkaSuccessBody r ≠ .ok out := by
  have hbody : pkaSuccessBody r = .error (.nameError "total_groups") := rfl
  have htext : calculatePkaText (.success r)
      = calcErrorText "name 'total_groups' is not defined" := by
    simp [calculatePkaText, hbody, PyExc.message]
  refine ⟨hbody, htext, ?_, ?_⟩
  · refine ⟨" name 'total_groups' is not defined\n\n🔧 **Common issues:**\n"
      ++ "• PROPKA3 not installed\n• Invalid PDB format\n"
      ++ "• No ionizable residues found\n• File permission issues", ?_⟩
    rw [htext]
    rfl
  · intro out hout
    rw [hbody] at hout
    exact Except.noConfusion hout

end BioMCP
